import Mathlib

/-!
Verification of the image-acquisition and poem-generation core of the
Image Bard application.

The development shallowly embeds three pieces of the source:

* `convertImageUrlToDataUrlAction` (src/app/actions.ts): the remote-URL
  normalizer.  External effects (URL validation by the zod library, the
  HTTP fetch) are supplied through an `Env` record; the function returns
  the `ConversionResult` together with the list of observable events
  (HTTP request issued, response body fully buffered), so that claims
  about "no request issued" and "checked only after buffering" are
  statable.
* `generatePoemFromImageFlow` (src/ai/flows/generate-poem-from-image.ts):
  the genkit flow, parameterized by the downstream model.  The zod
  schemas are embedded as parsers over a JSON value type; the flow
  additionally reports whether the model was invoked.
* `fileSchema` (the client component): the local-file zod schema with its
  three ordered refinements and their messages.

Bytes are `Fin 256`; base64 encoding and decoding are implemented
concretely and proved to round-trip.
-/

set_option autoImplicit false

namespace ImageBard

/-- Substring test, mirroring the JavaScript `String.prototype.includes`. -/
def strIncludes (s pat : String) : Bool :=
  decide (pat.data <:+: s.data)

/-- Prefix test, mirroring the JavaScript `String.prototype.startsWith`. -/
def strStartsWith (s pre : String) : Bool :=
  pre.data.isPrefixOf s.data

/-! ## Base64 -/

/-- The standard base64 alphabet, in index order. -/
def base64Alphabet : String :=
  "ABCDEFGHIJKLMNOPQRSTUVWXYZabcdefghijklmnopqrstuvwxyz0123456789+/"

def base64Chars : List Char := base64Alphabet.data

/-- Character for a sextet value. -/
def b64Char (n : Nat) : Char := base64Chars.getD n 'A'

def b64IndexAux : List Char → Nat → Char → Option Nat
  | [], _, _ => none
  | c :: cs, i, t => if c = t then some i else b64IndexAux cs (i + 1) t

/-- Index of a character in the base64 alphabet. -/
def b64Index (c : Char) : Option Nat := b64IndexAux base64Chars 0 c

/-- Base64-encode a byte list, three bytes to four characters, with
`=` padding, as `Buffer.toString("base64")` produces. -/
def base64EncodeList : List (Fin 256) → List Char
  | [] => []
  | [b1] =>
      [b64Char (b1.val / 4), b64Char (b1.val % 4 * 16), '=', '=']
  | [b1, b2] =>
      [b64Char (b1.val / 4), b64Char (b1.val % 4 * 16 + b2.val / 16),
       b64Char (b2.val % 16 * 4), '=']
  | b1 :: b2 :: b3 :: rest =>
      b64Char (b1.val / 4) :: b64Char (b1.val % 4 * 16 + b2.val / 16) ::
      b64Char (b2.val % 16 * 4 + b3.val / 64) :: b64Char (b3.val % 64) ::
      base64EncodeList rest

def base64Encode (bytes : List (Fin 256)) : String :=
  String.mk (base64EncodeList bytes)

/-- Base64 decoding, inverse of `base64EncodeList`; `none` on input that
is not well-formed base64. -/
def base64DecodeList : List Char → Option (List Nat)
  | [] => some []
  | c1 :: c2 :: c3 :: c4 :: rest =>
      match b64Index c1, b64Index c2 with
      | some s1, some s2 =>
          if c3 = '=' then
            if c4 = '=' ∧ rest = [] then some [s1 * 4 + s2 / 16] else none
          else
            match b64Index c3 with
            | some s3 =>
                if c4 = '=' then
                  if rest = [] then
                    some [s1 * 4 + s2 / 16, s2 % 16 * 16 + s3 / 4]
                  else none
                else
                  match b64Index c4, base64DecodeList rest with
                  | some s4, some tail =>
                      some ((s1 * 4 + s2 / 16) :: (s2 % 16 * 16 + s3 / 4) ::
                            (s3 % 4 * 64 + s4) :: tail)
                  | _, _ => none
            | none => none
      | _, _ => none
  | _ => some []

/-! ## The remote-URL normalizer (src/app/actions.ts) -/

/-- Result record of `convertImageUrlToDataUrlAction`, mirroring the
`ConversionResult` interface. -/
structure ConversionResult where
  success : Bool
  dataUrl : Option String
  error : Option String
deriving DecidableEq, Repr

/-- A JavaScript exception value as the catch handler distinguishes it:
an `Error` instance with a message, a plain string, or anything else. -/
inductive Exc where
  | errorObj (msg : String)
  | strVal (s : String)
  | other
deriving DecidableEq, Repr

/-- The view of an HTTP response the action consumes.  `jsonMessage`
describes the result of `response.json()` on the error path: `none` when
the body is not JSON (the call rejects), `some m` when it parses, with
`m` the string `message` field when one is present.  `bodyResult` is the
result of `response.arrayBuffer()`: the body bytes, or a thrown
exception. -/
structure HttpResponse where
  ok : Bool
  status : Nat
  statusText : String
  jsonMessage : Option (Option String)
  contentType : Option String
  bodyResult : Except Exc (List (Fin 256))

/-- Outcome of `fetch`: a response, or a thrown exception. -/
inductive FetchOutcome where
  | throws (e : Exc)
  | returns (resp : HttpResponse)

/-- External collaborators of the action: the URL-syntax check performed
by `z.string().url()` (the zod library), and the HTTP transport. -/
structure Env where
  urlValid : String → Bool
  fetch : String → FetchOutcome

/-- Observable effects of one call, in order of occurrence. -/
inductive Event where
  | httpRequest (url : String)
  | bodyBuffered (byteLength : Nat)
deriving DecidableEq, Repr

/-- Message substituted for network transport failures. -/
def networkErrorMessage : String :=
  "Network error or invalid URL. Could not fetch the image."

/-- The message the catch handler starts from, per the branch on
`e instanceof Error` and `typeof e === "string"`. -/
def excMessage : Exc → String
  | .errorObj msg => msg
  | .strVal s => s
  | .other => "Failed to convert image URL."

/-- The catch-all handler at the bottom of the action: derive a message
from the exception, then rewrite messages containing "fetch" to the
user-facing network-error message. -/
def handleException (e : Exc) : ConversionResult :=
  let errorMessage := excMessage e
  let finalMessage :=
    if strIncludes errorMessage "fetch" then networkErrorMessage else errorMessage
  { success := false, dataUrl := none, error := some finalMessage }

/-- Error text for a non-ok response: the JSON body message when truthy,
else the status text when nonempty, else the generic message with the
numeric status. -/
def errorTextFor (resp : HttpResponse) : String :=
  let generic := "Failed to fetch image. Status: " ++ toString resp.status
  let fallback :=
    if resp.statusText ≠ "" then "Failed to fetch image: " ++ resp.statusText
    else generic
  match resp.jsonMessage with
  | some (some m) => if m ≠ "" then m else fallback
  | some none => fallback
  | none => fallback

/-- How the content-type header renders inside the invalid-content-type
message: the header value, or the string "null" (JavaScript string
concatenation of the `null` header). -/
def ctDisplay : Option String → String
  | some ct => ct
  | none => "null"

def MAX_REMOTE_SIZE : Nat := 10 * 1024 * 1024

/-- Shallow embedding of `convertImageUrlToDataUrlAction`.  Returns the
`ConversionResult` together with the events that occurred. -/
def convertImageUrlToDataUrlAction (env : Env) (imageUrl : String) :
    ConversionResult × List Event :=
  if env.urlValid imageUrl = false then
    ({ success := false, dataUrl := none, error := some "Invalid URL format." }, [])
  else
    match env.fetch imageUrl with
    | .throws e => (handleException e, [.httpRequest imageUrl])
    | .returns resp =>
      if resp.ok = false then
        ({ success := false, dataUrl := none, error := some (errorTextFor resp) },
         [.httpRequest imageUrl])
      else if (match resp.contentType with
               | some ct => strStartsWith ct "image/"
               | none => false) = false then
        ({ success := false, dataUrl := none,
           error := some ("Invalid content type. URL does not point to an image. Found: "
                          ++ ctDisplay resp.contentType) },
         [.httpRequest imageUrl])
      else
        match resp.bodyResult with
        | .error e => (handleException e, [.httpRequest imageUrl])
        | .ok bytes =>
          if bytes.length = 0 then
            ({ success := false, dataUrl := none, error := some "Fetched image is empty." },
             [.httpRequest imageUrl, .bodyBuffered bytes.length])
          else if bytes.length > MAX_REMOTE_SIZE then
            ({ success := false, dataUrl := none,
               error := some "Image size exceeds 10MB limit." },
             [.httpRequest imageUrl, .bodyBuffered bytes.length])
          else
            ({ success := true,
               dataUrl := some ("data:" ++ ctDisplay resp.contentType ++ ";base64,"
                                ++ base64Encode bytes),
               error := none },
             [.httpRequest imageUrl, .bodyBuffered bytes.length])

/-! ## The poem-generation flow (src/ai/flows/generate-poem-from-image.ts) -/

/-- A JSON value, the raw data zod schemas parse. -/
inductive JsonValue where
  | str (s : String)
  | num (n : Int)
  | boolean (b : Bool)
  | null
  | obj (fields : List (String × JsonValue))
  | arr (elems : List JsonValue)

/-- First value bound to a field name in a JSON object. -/
def jsonLookup (name : String) : List (String × JsonValue) → Option JsonValue
  | [] => none
  | (k, v) :: rest => if k = name then some v else jsonLookup name rest

structure GeneratePoemFromImageInput where
  photoDataUri : String
deriving DecidableEq, Repr

structure GeneratePoemFromImageOutput where
  poem : String
deriving DecidableEq, Repr

/-- `GeneratePoemFromImageInputSchema`: `z.object({photoDataUri: z.string()
.describe(...)})`.  `describe` attaches documentation only; the parser
requires a `photoDataUri` field holding a string and nothing more. -/
def parsePoemInput (v : JsonValue) : Option GeneratePoemFromImageInput :=
  match v with
  | .obj fields =>
      match jsonLookup "photoDataUri" fields with
      | some (.str s) => some ⟨s⟩
      | _ => none
  | _ => none

/-- `GeneratePoemFromImageOutputSchema`: `z.object({poem: z.string()})`. -/
def parsePoemOutput (v : JsonValue) : Option GeneratePoemFromImageOutput :=
  match v with
  | .obj fields =>
      match jsonLookup "poem" fields with
      | some (.str s) => some ⟨s⟩
      | _ => none
  | _ => none

/-- Outcome of one downstream model invocation: the invocation itself
fails, or the model responds with a structured value. -/
inductive ModelResult where
  | invocationError
  | responds (v : JsonValue)

/-- The ways `generatePoemFromImage` rejects. -/
inductive GenerationError where
  | inputSchemaViolation
  | modelInvocationFailure
  | outputSchemaViolation
deriving DecidableEq, Repr

/-- Shallow embedding of `generatePoemFromImageFlow`: validate the input
against the input schema, invoke the prompt (hence the model), validate
the model output against the output schema and return it.  The boolean
records whether the model was invoked. -/
def generatePoemFromImageFlow (model : GeneratePoemFromImageInput → ModelResult)
    (input : JsonValue) :
    Except GenerationError GeneratePoemFromImageOutput × Bool :=
  match parsePoemInput input with
  | none => (.error .inputSchemaViolation, false)
  | some inp =>
    match model inp with
    | .invocationError => (.error .modelInvocationFailure, true)
    | .responds v =>
      match parsePoemOutput v with
      | none => (.error .outputSchemaViolation, true)
      | some out => (.ok out, true)

/-- The exported wrapper `generatePoemFromImage` just calls the flow. -/
def generatePoemFromImage (model : GeneratePoemFromImageInput → ModelResult)
    (input : JsonValue) :
    Except GenerationError GeneratePoemFromImageOutput × Bool :=
  generatePoemFromImageFlow model input

def uriScheme : List Char := "data:".data

def base64Marker : List Char := ";base64,".data

/-- Split a character list at the first occurrence of `base64Marker`,
returning the part before and the part after it. -/
def splitAtMarker : List Char → Option (List Char × List Char)
  | [] => none
  | c :: rest =>
      if base64Marker.isPrefixOf (c :: rest) then
        some ([], (c :: rest).drop base64Marker.length)
      else
        match splitAtMarker rest with
        | some (pre, post) => some (c :: pre, post)
        | none => none

/-- Modelled from the spec: a well-formed canonical data URI has the
shape `data:<mimetype>;base64,<data>` — the `data:` scheme, a nonempty
MIME type, and the `;base64,` marker. -/
def isWellFormedDataUri (s : String) : Bool :=
  uriScheme.isPrefixOf s.data &&
  (match splitAtMarker (s.data.drop uriScheme.length) with
   | some (mime, _) => decide (mime ≠ [])
   | none => false)

/-! ## The local-file schema (client component) -/

/-- What the file schema reads off an uploaded `File`. -/
structure UploadedFile where
  size : Nat
  declaredType : String
deriving DecidableEq, Repr

def MAX_FILE_SIZE : Nat := 5 * 1024 * 1024

def ACCEPTED_IMAGE_TYPES : List String :=
  ["image/jpeg", "image/png", "image/webp", "image/gif"]

def requiredMessage : String := "Image is required."

def sizeMessage : String := "Max file size is 5MB."

def typeMessage : String := ".jpg, .jpeg, .png, .webp and .gif files are accepted."

/-- The ordered issue list produced by the three chained `.refine`
checks of `fileSchema` on a `FileList` (`none` models a missing value;
zod runs every refinement and collects issues in order).  On a present
but empty list, the second refinement dereferences `files[0].size` on
`undefined` and throws: that is the `.error` case. -/
def fileSchemaIssues (files : Option (List UploadedFile)) :
    Except Unit (List String) :=
  match files with
  | none => .ok [requiredMessage, sizeMessage, typeMessage]
  | some [] => .error ()
  | some (f :: fs) =>
      let issue1 : List String :=
        if (f :: fs).length > 0 then [] else [requiredMessage]
      let issue2 : List String :=
        if f.size ≤ MAX_FILE_SIZE then [] else [sizeMessage]
      let issue3 : List String :=
        if ACCEPTED_IMAGE_TYPES.contains f.declaredType then [] else [typeMessage]
      .ok (issue1 ++ issue2 ++ issue3)

/-- `safeParse` observed through the client code, which reads
`error.errors[0].message`: `.ok none` on validation success, otherwise
the first issue message. -/
def fileSchemaFirstError (files : Option (List UploadedFile)) :
    Except Unit (Option String) :=
  match fileSchemaIssues files with
  | .error u => .error u
  | .ok issues => .ok issues.head?

/-! ## Concrete scenarios used to instantiate the theorems -/

/-- A 200 response carrying four PNG header bytes as `image/png`. -/
def respPng : HttpResponse :=
  { ok := true, status := 200, statusText := "OK", jsonMessage := none,
    contentType := some "image/png", bodyResult := .ok [137, 80, 78, 71] }

def envPng : Env :=
  { urlValid := fun _ => true, fetch := fun _ => .returns respPng }

/-- An environment whose URL check rejects every string. -/
def envBadUrl : Env :=
  { urlValid := fun _ => false, fetch := fun _ => .throws .other }

/-- A 200 response whose content type is `text/html`. -/
def respHtml : HttpResponse :=
  { ok := true, status := 200, statusText := "OK", jsonMessage := none,
    contentType := some "text/html", bodyResult := .ok [60] }

def envHtml : Env :=
  { urlValid := fun _ => true, fetch := fun _ => .returns respHtml }

/-- A 200 `image/png` response whose body is 11 MiB of zero bytes. -/
def respBig : HttpResponse :=
  { ok := true, status := 200, statusText := "OK", jsonMessage := none,
    contentType := some "image/png",
    bodyResult := .ok (List.replicate (11 * 1024 * 1024) (0 : Fin 256)) }

def envBig : Env :=
  { urlValid := fun _ => true, fetch := fun _ => .returns respBig }

/-- A 404 response whose JSON body carries the message "nope": the
extracted message then mentions neither the status nor the status
text. -/
def respNotFoundJson : HttpResponse :=
  { ok := false, status := 404, statusText := "Not Found",
    jsonMessage := some (some "nope"), contentType := none, bodyResult := .ok [] }

def envNotFoundJson : Env :=
  { urlValid := fun _ => true, fetch := fun _ => .returns respNotFoundJson }

/-- A plain 404 response with no JSON body. -/
def respNotFound : HttpResponse :=
  { ok := false, status := 404, statusText := "Not Found",
    jsonMessage := none, contentType := none, bodyResult := .ok [] }

def envNotFound : Env :=
  { urlValid := fun _ => true, fetch := fun _ => .returns respNotFound }

/-- An environment whose fetch rejects with the `TypeError` Node's fetch
raises on transport failures; its message is "fetch failed". -/
def envTransportFailure : Env :=
  { urlValid := fun _ => true, fetch := fun _ => .throws (.errorObj "fetch failed") }

/-- A 200 response carrying one byte of `image/svg+xml`. -/
def respSvg : HttpResponse :=
  { ok := true, status := 200, statusText := "OK", jsonMessage := none,
    contentType := some "image/svg+xml", bodyResult := .ok [60] }

def envSvg : Env :=
  { urlValid := fun _ => true, fetch := fun _ => .returns respSvg }

/-- A model stub that always answers with the poem "An ode". -/
def stubModelOde : GeneratePoemFromImageInput → ModelResult :=
  fun _ => .responds (.obj [("poem", .str "An ode")])

/-- A model stub that answers with an empty poem string. -/
def stubModelEmptyPoem : GeneratePoemFromImageInput → ModelResult :=
  fun _ => .responds (.obj [("poem", .str "")])

/-- A model stub whose answer lacks the `poem` field. -/
def stubModelNoPoem : GeneratePoemFromImageInput → ModelResult :=
  fun _ => .responds (.obj [("verse", .str "An ode")])

/-- A canonical well-formed data URI used to instantiate the flow
theorems. -/
def wellFormedUri : String := "data:image/png;base64,iVBORw=="


/-! ## Theorems -/

theorem b64Index_b64Char_fin : ∀ d : Fin 64, b64Index (b64Char d.val) = some d.val := by
  decide

theorem b64Index_b64Char {d : Nat} (h : d < 64) : b64Index (b64Char d) = some d :=
  b64Index_b64Char_fin ⟨d, h⟩

theorem b64Char_ne_pad_fin : ∀ d : Fin 64, b64Char d.val ≠ '=' := by
  decide

theorem b64Char_ne_pad {d : Nat} (h : d < 64) : b64Char d ≠ '=' :=
  b64Char_ne_pad_fin ⟨d, h⟩

/-- Decoding inverts encoding on every byte list. -/
theorem base64_roundtrip (l : List (Fin 256)) :
    base64DecodeList (base64EncodeList l) = some (l.map Fin.val) := by
  induction l using base64EncodeList.induct with
  | case1 =>
      simp [base64EncodeList, base64DecodeList]
  | case2 b1 =>
      have h1 : b1.val / 4 < 64 := by omega
      have h2 : b1.val % 4 * 16 < 64 := by omega
      have e1 : b1.val / 4 * 4 + b1.val % 4 * 16 / 16 = b1.val := by omega
      simp [base64EncodeList, base64DecodeList,
        b64Index_b64Char h1, b64Index_b64Char h2]
      all_goals omega
  | case3 b1 b2 =>
      have hb2 := b2.isLt
      have h1 : b1.val / 4 < 64 := by omega
      have h2 : b1.val % 4 * 16 + b2.val / 16 < 64 := by omega
      have h3 : b2.val % 16 * 4 < 64 := by omega
      have e1 : b1.val / 4 * 4 + (b1.val % 4 * 16 + b2.val / 16) / 16 = b1.val := by
        omega
      have e2 : (b1.val % 4 * 16 + b2.val / 16) % 16 * 16 + b2.val % 16 * 4 / 4
          = b2.val := by omega
      simp [base64EncodeList, base64DecodeList,
        b64Index_b64Char h1, b64Index_b64Char h2, b64Index_b64Char h3,
        b64Char_ne_pad h3]
      all_goals omega
  | case4 b1 b2 b3 rest ih =>
      have hb2 := b2.isLt
      have hb3 := b3.isLt
      have h1 : b1.val / 4 < 64 := by omega
      have h2 : b1.val % 4 * 16 + b2.val / 16 < 64 := by omega
      have h3 : b2.val % 16 * 4 + b3.val / 64 < 64 := by omega
      have h4 : b3.val % 64 < 64 := by omega
      have e1 : b1.val / 4 * 4 + (b1.val % 4 * 16 + b2.val / 16) / 16 = b1.val := by
        omega
      have e2 : (b1.val % 4 * 16 + b2.val / 16) % 16 * 16 +
          (b2.val % 16 * 4 + b3.val / 64) / 4 = b2.val := by omega
      have e3 : (b2.val % 16 * 4 + b3.val / 64) % 4 * 64 + b3.val % 64 = b3.val := by
        omega
      simp [base64EncodeList, base64DecodeList,
        b64Index_b64Char h1, b64Index_b64Char h2, b64Index_b64Char h3,
        b64Index_b64Char h4,
        b64Char_ne_pad h3, b64Char_ne_pad h4, ih]
      all_goals omega

/-- Helper: a string is always included in anything it suffixes. -/
theorem strIncludes_append_right (pre pat : String) :
    strIncludes (pre ++ pat) pat = true := by
  simp only [strIncludes, decide_eq_true_eq, String.data_append]
  exact (List.suffix_append pre.data pat.data).isInfix

/-- C4: when the input string fails the URL-syntax check,
`convertImageUrlToDataUrlAction` returns `success = false` with the
message "Invalid URL format." and issues no HTTP request (the event
list is empty). -/
theorem invalid_url_fails_without_request (env : Env) (url : String)
    (h : env.urlValid url = false) :
    convertImageUrlToDataUrlAction env url =
      ({ success := false, dataUrl := none, error := some "Invalid URL format." },
       []) := by
  simp [convertImageUrlToDataUrlAction, h]

theorem invalid_url_fails_without_request_witness :
    convertImageUrlToDataUrlAction envBadUrl "not a url" =
      ({ success := false, dataUrl := none, error := some "Invalid URL format." },
       []) :=
  invalid_url_fails_without_request envBadUrl "not a url" rfl

/-- C6: an ok response whose content-type header is absent or does not
start with "image/" makes the action fail with the invalid-content-type
message, and when the header is present the message contains the
observed content type. -/
theorem non_image_content_type_fails (env : Env) (url : String)
    (resp : HttpResponse)
    (hv : env.urlValid url = true)
    (hf : env.fetch url = .returns resp)
    (hok : resp.ok = true)
    (hct : ∀ ct, resp.contentType = some ct → strStartsWith ct "image/" = false) :
    convertImageUrlToDataUrlAction env url =
      ({ success := false, dataUrl := none,
         error := some ("Invalid content type. URL does not point to an image. Found: "
                        ++ ctDisplay resp.contentType) },
       [.httpRequest url]) ∧
    ∀ ct, resp.contentType = some ct →
      strIncludes ("Invalid content type. URL does not point to an image. Found: "
                   ++ ctDisplay resp.contentType) ct = true := by
  have hmatch : (match resp.contentType with
      | some ct => strStartsWith ct "image/"
      | none => false) = false := by
    cases hc : resp.contentType with
    | none => rfl
    | some ct => exact hct ct hc
  constructor
  · simp [convertImageUrlToDataUrlAction, hv, hf, hok, hmatch]
  · intro ct hc
    rw [hc]
    exact strIncludes_append_right _ ct

theorem non_image_content_type_fails_witness :
    convertImageUrlToDataUrlAction envHtml "https://x.test/page" =
      ({ success := false, dataUrl := none,
         error := some ("Invalid content type. URL does not point to an image. Found: "
                        ++ ctDisplay respHtml.contentType) },
       [.httpRequest "https://x.test/page"]) ∧
    strIncludes ("Invalid content type. URL does not point to an image. Found: "
                 ++ ctDisplay respHtml.contentType) "text/html" = true := by
  have h := non_image_content_type_fails envHtml "https://x.test/page" respHtml
    rfl rfl rfl (by intro ct hc; cases hc; decide)
  exact ⟨h.1, h.2 "text/html" rfl⟩

/-- C7: an ok image response whose body exceeds 10 MiB makes the action
fail with the 10MB-limit message; the event trace shows the full body
was buffered (with its complete byte length) before the failure. -/
theorem oversize_body_fails_after_buffering (env : Env) (url : String)
    (resp : HttpResponse) (ct : String) (bytes : List (Fin 256))
    (hv : env.urlValid url = true)
    (hf : env.fetch url = .returns resp)
    (hok : resp.ok = true)
    (hct : resp.contentType = some ct)
    (himg : strStartsWith ct "image/" = true)
    (hbody : resp.bodyResult = .ok bytes)
    (hsize : bytes.length > 10 * 1024 * 1024) :
    convertImageUrlToDataUrlAction env url =
      ({ success := false, dataUrl := none,
         error := some "Image size exceeds 10MB limit." },
       [.httpRequest url, .bodyBuffered bytes.length]) := by
  have h0 : ¬ bytes.length = 0 := by omega
  have h1 : bytes.length > MAX_REMOTE_SIZE := by
    simpa [MAX_REMOTE_SIZE] using hsize
  simp [convertImageUrlToDataUrlAction, hv, hf, hok, hct, himg, hbody, h0, h1]

theorem oversize_body_fails_after_buffering_witness :
    convertImageUrlToDataUrlAction envBig "https://x.test/big.png" =
      ({ success := false, dataUrl := none,
         error := some "Image size exceeds 10MB limit." },
       [.httpRequest "https://x.test/big.png",
        .bodyBuffered (List.replicate (11 * 1024 * 1024) (0 : Fin 256)).length]) :=
  oversize_body_fails_after_buffering envBig "https://x.test/big.png" respBig
    "image/png" (List.replicate (11 * 1024 * 1024) (0 : Fin 256))
    rfl rfl rfl rfl (by decide) rfl
    (by rw [List.length_replicate]; norm_num)

/-- C3: every successful call returns exactly
`data:<content-type>;base64,<base64 body>`, where the content type is
the one from the response header and base64-decoding the encoded part
recovers exactly the fetched body bytes. -/
theorem success_payload_is_canonical (env : Env) (url : String)
    (r : ConversionResult) (evs : List Event)
    (h : convertImageUrlToDataUrlAction env url = (r, evs))
    (hs : r.success = true) :
    ∃ (resp : HttpResponse) (ct : String) (bytes : List (Fin 256)),
      env.fetch url = .returns resp ∧
      resp.contentType = some ct ∧
      strStartsWith ct "image/" = true ∧
      resp.bodyResult = .ok bytes ∧
      r.dataUrl = some ("data:" ++ ct ++ ";base64," ++ base64Encode bytes) ∧
      base64DecodeList (base64Encode bytes).data = some (bytes.map Fin.val) := by
  unfold convertImageUrlToDataUrlAction at h
  split at h
  · rw [Prod.mk.injEq] at h
    rw [← h.1] at hs
    simp at hs
  · split at h
    · rw [Prod.mk.injEq] at h
      rw [← h.1] at hs
      simp [handleException] at hs
    · rename_i resp hfetch
      split at h
      · rw [Prod.mk.injEq] at h
        rw [← h.1] at hs
        simp at hs
      · rename_i hok
        split at h
        · rw [Prod.mk.injEq] at h
          rw [← h.1] at hs
          simp at hs
        · rename_i hctTrue
          split at h
          · rw [Prod.mk.injEq] at h
            rw [← h.1] at hs
            simp [handleException] at hs
          · rename_i bytes hbody
            split at h
            · rw [Prod.mk.injEq] at h
              rw [← h.1] at hs
              simp at hs
            · split at h
              · rw [Prod.mk.injEq] at h
                rw [← h.1] at hs
                simp at hs
              · rw [Prod.mk.injEq] at h
                cases hc : resp.contentType with
                | none => rw [hc] at hctTrue; simp at hctTrue
                | some ct =>
                    rw [hc] at hctTrue
                    simp only [Bool.not_eq_false] at hctTrue
                    refine ⟨resp, ct, bytes, hfetch, hc, hctTrue, hbody, ?_, ?_⟩
                    · rw [← h.1, hc]
                      rfl
                    · exact base64_roundtrip bytes

theorem success_payload_is_canonical_witness :
    ∃ (resp : HttpResponse) (ct : String) (bytes : List (Fin 256)),
      envPng.fetch "https://x.test/i.png" = .returns resp ∧
      resp.contentType = some ct ∧
      strStartsWith ct "image/" = true ∧
      resp.bodyResult = .ok bytes ∧
      (convertImageUrlToDataUrlAction envPng "https://x.test/i.png").1.dataUrl =
        some ("data:" ++ ct ++ ";base64," ++ base64Encode bytes) ∧
      base64DecodeList (base64Encode bytes).data = some (bytes.map Fin.val) :=
  success_payload_is_canonical envPng "https://x.test/i.png"
    (convertImageUrlToDataUrlAction envPng "https://x.test/i.png").1
    (convertImageUrlToDataUrlAction envPng "https://x.test/i.png").2
    rfl (by decide)

/-- C8 (amended): a non-ok response always yields failure with
`errorTextFor`; the message is, in priority order, the truthy JSON body
message, else the nonempty status text, else the generic message with
the numeric status; and a 404 response with no truthy JSON message
yields a message containing "404" or the status text. -/
theorem non_ok_error_message_priority (env : Env) (url : String)
    (resp : HttpResponse)
    (hv : env.urlValid url = true)
    (hf : env.fetch url = .returns resp)
    (hok : resp.ok = false) :
    convertImageUrlToDataUrlAction env url =
      ({ success := false, dataUrl := none, error := some (errorTextFor resp) },
       [.httpRequest url]) ∧
    (∀ m, resp.jsonMessage = some (some m) → m ≠ "" → errorTextFor resp = m) ∧
    ((∀ m, resp.jsonMessage = some (some m) → m = "") → resp.statusText ≠ "" →
       errorTextFor resp = "Failed to fetch image: " ++ resp.statusText) ∧
    ((∀ m, resp.jsonMessage = some (some m) → m = "") → resp.statusText = "" →
       errorTextFor resp = "Failed to fetch image. Status: " ++ toString resp.status) ∧
    (resp.status = 404 → (∀ m, resp.jsonMessage = some (some m) → m = "") →
       strIncludes (errorTextFor resp) "404" = true ∨
       strIncludes (errorTextFor resp) resp.statusText = true) := by
  refine ⟨?_, ?_, ?_, ?_, ?_⟩
  · simp [convertImageUrlToDataUrlAction, hv, hf, hok]
  · intro m hm hne
    simp [errorTextFor, hm, hne]
  · intro hno hst
    unfold errorTextFor
    cases hj : resp.jsonMessage with
    | none => simp [hst]
    | some j =>
        cases j with
        | none => simp [hst]
        | some m =>
            have : m = "" := hno m (by rw [hj])
            simp [this, hst]
  · intro hno hst
    unfold errorTextFor
    cases hj : resp.jsonMessage with
    | none => simp [hst]
    | some j =>
        cases j with
        | none => simp [hst]
        | some m =>
            have : m = "" := hno m (by rw [hj])
            simp [this, hst]
  · intro h404 hno
    by_cases hst : resp.statusText = ""
    · left
      unfold errorTextFor
      rw [h404]
      cases hj : resp.jsonMessage with
      | none => simp [hst]; decide
      | some j =>
          cases j with
          | none => simp [hst]; decide
          | some m =>
              have : m = "" := hno m (by rw [hj])
              simp [this, hst]
              decide
    · right
      unfold errorTextFor
      cases hj : resp.jsonMessage with
      | none =>
          simp [hst]
          exact strIncludes_append_right "Failed to fetch image: " resp.statusText
      | some j =>
          cases j with
          | none =>
              simp [hst]
              exact strIncludes_append_right "Failed to fetch image: " resp.statusText
          | some m =>
              have : m = "" := hno m (by rw [hj])
              simp [this, hst]
              exact strIncludes_append_right "Failed to fetch image: " resp.statusText

/-- C8 counterexample: a 404 response whose JSON body carries the
message "nope" produces exactly "nope" as the failure message, which
contains neither "404" nor the status text "Not Found" — refuting the
claim that every 404 yields a message containing one of them. -/
theorem non_ok_error_message_priority_counterexample :
    respNotFoundJson.status = 404 ∧
    respNotFoundJson.statusText = "Not Found" ∧
    (convertImageUrlToDataUrlAction envNotFoundJson "https://x.test/m").1 =
      { success := false, dataUrl := none, error := some "nope" } ∧
    strIncludes "nope" "404" = false ∧
    strIncludes "nope" "Not Found" = false := by
  refine ⟨rfl, rfl, by decide, by decide, by decide⟩

theorem non_ok_error_message_priority_witness :
    convertImageUrlToDataUrlAction envNotFound "https://x.test/m" =
      ({ success := false, dataUrl := none,
         error := some (errorTextFor respNotFound) },
       [.httpRequest "https://x.test/m"]) ∧
    errorTextFor respNotFound = "Failed to fetch image: " ++ "Not Found" ∧
    (strIncludes (errorTextFor respNotFound) "404" = true ∨
     strIncludes (errorTextFor respNotFound) respNotFound.statusText = true) := by
  have h := non_ok_error_message_priority envNotFound "https://x.test/m"
    respNotFound rfl rfl rfl
  refine ⟨h.1, ?_, h.2.2.2.2 rfl (by intro m hm; cases hm)⟩
  exact h.2.2.1 (by intro m hm; cases hm) (by decide)

/-- C9: exceptions thrown while fetching or while reading the body are
not propagated — the action returns `success = false` with some error
message — and an exception whose message contains "fetch" (as the
`TypeError: fetch failed` raised by the Node transport on network
failures does) is rewritten to the user-facing network-error message.
The last conjunct records the rewrite on that transport exception
itself. -/
theorem exceptions_are_caught_and_rewritten (env : Env) (url : String)
    (hv : env.urlValid url = true) :
    (∀ e, env.fetch url = .throws e →
       (convertImageUrlToDataUrlAction env url).1.success = false ∧
       ((convertImageUrlToDataUrlAction env url).1.error).isSome = true ∧
       (strIncludes (excMessage e) "fetch" = true →
         (convertImageUrlToDataUrlAction env url).1.error = some networkErrorMessage)) ∧
    (∀ resp e ct, env.fetch url = .returns resp → resp.ok = true →
       resp.contentType = some ct → strStartsWith ct "image/" = true →
       resp.bodyResult = .error e →
       (convertImageUrlToDataUrlAction env url).1.success = false ∧
       ((convertImageUrlToDataUrlAction env url).1.error).isSome = true ∧
       (strIncludes (excMessage e) "fetch" = true →
         (convertImageUrlToDataUrlAction env url).1.error = some networkErrorMessage)) ∧
    handleException (.errorObj "fetch failed") =
      { success := false, dataUrl := none, error := some networkErrorMessage } := by
  refine ⟨?_, ?_, by decide⟩
  · intro e hf
    have hres : (convertImageUrlToDataUrlAction env url).1 = handleException e := by
      simp [convertImageUrlToDataUrlAction, hv, hf]
    rw [hres]
    unfold handleException
    by_cases hm : strIncludes (excMessage e) "fetch" = true
    · simp [hm]
    · simp [hm]
  · intro resp e ct hf hok hct himg hbody
    have hres : (convertImageUrlToDataUrlAction env url).1 = handleException e := by
      simp [convertImageUrlToDataUrlAction, hv, hf, hok, hct, himg, hbody]
    rw [hres]
    unfold handleException
    by_cases hm : strIncludes (excMessage e) "fetch" = true
    · simp [hm]
    · simp [hm]

theorem exceptions_are_caught_and_rewritten_witness :
    (convertImageUrlToDataUrlAction envTransportFailure "https://x.test/i").1.success
      = false ∧
    (convertImageUrlToDataUrlAction envTransportFailure "https://x.test/i").1.error
      = some networkErrorMessage := by
  have h := (exceptions_are_caught_and_rewritten envTransportFailure
    "https://x.test/i" rfl).1 (.errorObj "fetch failed") rfl
  exact ⟨h.1, h.2.2 (by decide)⟩

/-- C10: the four-type MIME enumeration is enforced only on the local
path: a remote response whose content type is `image/svg+xml` — outside
`ACCEPTED_IMAGE_TYPES` but prefixed with "image/" — with a nonempty body
within 10 MiB converts successfully into a canonical payload with that
MIME type. -/
theorem remote_path_ignores_accepted_types :
    ∃ (env : Env) (url : String) (resp : HttpResponse) (bytes : List (Fin 256)),
      env.fetch url = .returns resp ∧
      resp.contentType = some "image/svg+xml" ∧
      "image/svg+xml" ∉ ACCEPTED_IMAGE_TYPES ∧
      strStartsWith "image/svg+xml" "image/" = true ∧
      resp.bodyResult = .ok bytes ∧
      bytes ≠ [] ∧
      bytes.length ≤ MAX_REMOTE_SIZE ∧
      (convertImageUrlToDataUrlAction env url).1.success = true ∧
      (convertImageUrlToDataUrlAction env url).1.dataUrl =
        some ("data:image/svg+xml;base64," ++ base64Encode bytes) := by
  refine ⟨envSvg, "https://x.test/a.svg", respSvg, [60],
    rfl, rfl, by decide, by decide, rfl, by decide, by decide, by decide, by decide⟩

/-- C1 counterexample: "not a data uri" is not a well-formed data URI,
yet `generatePoemFromImage` on it succeeds and invokes the model — the
input schema performs no data-URI shape validation, so no
`GenerationError` arises from local schema validation. -/
theorem input_schema_shape_counterexample :
    isWellFormedDataUri "not a data uri" = false ∧
    generatePoemFromImage stubModelOde
      (.obj [("photoDataUri", .str "not a data uri")]) =
      (.ok { poem := "An ode" }, true) := by
  exact ⟨by decide, rfl⟩

/-- C1 (amended): the input schema validates only that `photoDataUri`
is a string.  Any value carrying a string `photoDataUri` — well-formed
data URI or not — passes local validation and the model is invoked;
only a missing or non-string `photoDataUri` fails before any model
invocation. -/
theorem input_schema_checks_string_only
    (model : GeneratePoemFromImageInput → ModelResult) (v : JsonValue) :
    (∀ inp, parsePoemInput v = some inp →
       (generatePoemFromImage model v).2 = true) ∧
    (parsePoemInput v = none →
       generatePoemFromImage model v = (.error .inputSchemaViolation, false)) ∧
    (∀ s : String, parsePoemInput (.obj [("photoDataUri", .str s)]) = some ⟨s⟩) := by
  refine ⟨?_, ?_, ?_⟩
  · intro inp hp
    simp only [generatePoemFromImage, generatePoemFromImageFlow, hp]
    cases hm : model inp with
    | invocationError => rfl
    | responds w =>
        cases hw : parsePoemOutput w <;> simp [hw]
  · intro hp
    simp [generatePoemFromImage, generatePoemFromImageFlow, hp]
  · intro s
    simp [parsePoemInput, jsonLookup]

theorem input_schema_checks_string_only_witness :
    (generatePoemFromImage stubModelOde
       (.obj [("photoDataUri", .str "not a data uri")])).2 = true ∧
    generatePoemFromImage stubModelOde (.obj []) =
      (.error .inputSchemaViolation, false) :=
  ⟨(input_schema_checks_string_only stubModelOde
      (.obj [("photoDataUri", .str "not a data uri")])).1
     { photoDataUri := "not a data uri" } rfl,
   (input_schema_checks_string_only stubModelOde (.obj [])).2.1 rfl⟩

/-- C2 counterexample: on a well-formed canonical data URI, a model
output whose `poem` field is the empty string passes output-schema
validation (`z.string()` accepts ""), so `generatePoemFromImage`
returns the empty poem instead of failing with a `GenerationError`. -/
theorem empty_poem_counterexample :
    isWellFormedDataUri wellFormedUri = true ∧
    generatePoemFromImage stubModelEmptyPoem
      (.obj [("photoDataUri", .str wellFormedUri)]) =
      (.ok { poem := "" }, true) := by
  exact ⟨by decide, rfl⟩

/-- C2 (amended): for a well-formed canonical data URI input, a model
response carrying any poem string — empty included — is returned
exactly; a response whose `poem` field is missing or not a string fails
with a `GenerationError` (output-schema violation), as does a failing
model invocation. -/
theorem model_output_validation (uri p : String)
    (model : GeneratePoemFromImageInput → ModelResult)
    (hwf : isWellFormedDataUri uri = true) :
    (model ⟨uri⟩ = .responds (.obj [("poem", .str p)]) →
       generatePoemFromImage model (.obj [("photoDataUri", .str uri)]) =
         (.ok { poem := p }, true)) ∧
    (∀ v, model ⟨uri⟩ = .responds v → parsePoemOutput v = none →
       generatePoemFromImage model (.obj [("photoDataUri", .str uri)]) =
         (.error .outputSchemaViolation, true)) ∧
    (model ⟨uri⟩ = .invocationError →
       generatePoemFromImage model (.obj [("photoDataUri", .str uri)]) =
         (.error .modelInvocationFailure, true)) := by
  have hin : parsePoemInput (.obj [("photoDataUri", .str uri)]) =
      some { photoDataUri := uri } := by
    simp [parsePoemInput, jsonLookup]
  refine ⟨?_, ?_, ?_⟩
  · intro hm
    simp only [generatePoemFromImage, generatePoemFromImageFlow, hin, hm]
    simp [parsePoemOutput, jsonLookup]
  · intro v hm hout
    simp [generatePoemFromImage, generatePoemFromImageFlow, hin, hm, hout]
  · intro hm
    simp [generatePoemFromImage, generatePoemFromImageFlow, hin, hm]

theorem model_output_validation_witness :
    generatePoemFromImage stubModelOde
      (.obj [("photoDataUri", .str wellFormedUri)]) =
      (.ok { poem := "An ode" }, true) ∧
    generatePoemFromImage stubModelNoPoem
      (.obj [("photoDataUri", .str wellFormedUri)]) =
      (.error .outputSchemaViolation, true) :=
  ⟨(model_output_validation wellFormedUri "An ode" stubModelOde (by decide)).1 rfl,
   (model_output_validation wellFormedUri "An ode" stubModelNoPoem (by decide)).2.1
     (.obj [("verse", .str "An ode")]) rfl (by decide)⟩

/-- C5: a present local file larger than 5 MiB always fails validation
with the size-limit message first, whatever its declared MIME type (the
size refinement precedes the type refinement); the three constraint
messages are pairwise distinct, and each constraint violated on its own
produces exactly its message. -/
theorem local_file_size_limit_first (f : UploadedFile) (fs : List UploadedFile)
    (h : f.size > MAX_FILE_SIZE) :
    fileSchemaFirstError (some (f :: fs)) = .ok (some sizeMessage) ∧
    (requiredMessage ≠ sizeMessage ∧ requiredMessage ≠ typeMessage ∧
     sizeMessage ≠ typeMessage) ∧
    fileSchemaFirstError none = .ok (some requiredMessage) ∧
    (∀ (g : UploadedFile) (gs : List UploadedFile), g.size ≤ MAX_FILE_SIZE →
       g.declaredType ∉ ACCEPTED_IMAGE_TYPES →
       fileSchemaFirstError (some (g :: gs)) = .ok (some typeMessage)) ∧
    (∀ (g : UploadedFile) (gs : List UploadedFile), g.size ≤ MAX_FILE_SIZE →
       g.declaredType ∈ ACCEPTED_IMAGE_TYPES →
       fileSchemaFirstError (some (g :: gs)) = .ok none) := by
  have hsz : ¬ f.size ≤ MAX_FILE_SIZE := by omega
  refine ⟨?_, by refine ⟨by decide, by decide, by decide⟩, by rfl, ?_, ?_⟩
  · unfold fileSchemaFirstError fileSchemaIssues
    by_cases ht : f.declaredType ∈ ACCEPTED_IMAGE_TYPES
    · simp [hsz, ht]
    · simp [hsz, ht]
  · intro g gs hgs hgt
    unfold fileSchemaFirstError fileSchemaIssues
    simp [hgs, hgt]
  · intro g gs hgs hgt
    unfold fileSchemaFirstError fileSchemaIssues
    simp [hgs, hgt]

theorem local_file_size_limit_first_witness :
    fileSchemaFirstError
      (some [{ size := 5 * 1024 * 1024 + 1, declaredType := "image/png" }]) =
      .ok (some sizeMessage) ∧
    fileSchemaFirstError none = .ok (some requiredMessage) ∧
    fileSchemaFirstError (some [{ size := 10, declaredType := "text/plain" }]) =
      .ok (some typeMessage) ∧
    fileSchemaFirstError (some [{ size := 10, declaredType := "image/png" }]) =
      .ok none := by
  have h := local_file_size_limit_first
    { size := 5 * 1024 * 1024 + 1, declaredType := "image/png" } []
    (by norm_num [MAX_FILE_SIZE])
  refine ⟨h.1, h.2.2.1, ?_, ?_⟩
  · exact h.2.2.2.1 { size := 10, declaredType := "text/plain" } []
      (by norm_num [MAX_FILE_SIZE]) (by decide)
  · exact h.2.2.2.2 { size := 10, declaredType := "image/png" } []
      (by norm_num [MAX_FILE_SIZE]) (by decide)

end ImageBard
